import Mathlib

/-!
Verification of the transaction-safety core of the Ancile DeFi assistant.

The definitions below are a shallow embedding of `src/lib/schemas.ts` and
`src/lib/error-handling.ts`:
* JavaScript strings are modelled by `String` (a list of characters);
  `String.prototype.includes`, `toUpperCase`/`toLowerCase` (ASCII range) and
  the regex `test` operation are given executable models.
* `Date.now()` is modelled by an explicit `now : Nat` argument (milliseconds).
* JavaScript numbers are modelled by `Rat` where arithmetic matters
  (validation thresholds, backoff delays); `Math.random()` becomes an
  explicit sample argument.
* Thrown exceptions are modelled by `Except String` carrying the error
  message that `classifyError` inspects.
-/

namespace Ancile

/-! ### ASCII case folding (models `toLowerCase` / `toUpperCase` on the
ASCII range, which is all the source's comparisons use) -/

def lowAscii (c : Char) : Char :=
  if 'A' ≤ c && c ≤ 'Z' then Char.ofNat (c.toNat + 32) else c

def upAscii (c : Char) : Char :=
  if 'a' ≤ c && c ≤ 'z' then Char.ofNat (c.toNat - 32) else c

def toLowerStr (s : String) : String := ⟨s.data.map lowAscii⟩

def toUpperStr (s : String) : String := ⟨s.data.map upAscii⟩

/-- `beginsWith pat l` : `pat` is a leading run of `l` (char-exact). -/
def beginsWith : List Char → List Char → Bool
  | [], _ => true
  | _ :: _, [] => false
  | a :: as, b :: bs => a == b && beginsWith as bs

/-- Model of JavaScript `String.prototype.includes` (case sensitive). -/
def containsSubstr (s sub : String) : Bool :=
  s.data.tails.any (beginsWith sub.data)

/-! ### Approval state machine (`src/lib/schemas.ts`, security section) -/

inductive ApprovalState where
  | pending_review
  | user_approved
  | user_rejected
  | expired
deriving DecidableEq, Repr

structure TransactionDetails where
  type : String
  tokenIn : Option String
  tokenOut : Option String
  amount : Option String
  chain : String
  toAddr : Option String  -- source field name: `to` (a Lean keyword)
deriving DecidableEq, Repr

structure TransactionApproval where
  id : String
  state : ApprovalState
  createdAt : Nat
  approvedAt : Option Nat
  rejectedAt : Option Nat
  expiresAt : Nat
  transactionDetails : TransactionDetails
deriving DecidableEq, Repr

def APPROVAL_EXPIRATION_MS : Nat := 5 * 60 * 1000

/-- `requiresUserApproval` from `schemas.ts`: the gate consulted before any
transaction is broadcast. `now` models `Date.now()`. -/
def requiresUserApproval (now : Nat) (a : TransactionApproval) : Bool :=
  if a.state != ApprovalState.pending_review && a.state != ApprovalState.user_approved then
    true
  else if a.expiresAt < now then
    true
  else
    a.state != ApprovalState.user_approved

/-- `createTransactionApproval`; the random id suffix is an explicit
argument (`Math.random().toString(36).substr(2, 9)` in the source). -/
def createTransactionApproval (now : Nat) (rand : String)
    (details : TransactionDetails) : TransactionApproval :=
  { id := "tx-" ++ toString now ++ "-" ++ rand
    state := ApprovalState.pending_review
    createdAt := now
    approvedAt := none
    rejectedAt := none
    expiresAt := now + APPROVAL_EXPIRATION_MS
    transactionDetails := details }

/-- `approveTransaction` from `schemas.ts`. -/
def approveTransaction (now : Nat) (a : TransactionApproval) : TransactionApproval :=
  if a.expiresAt < now then
    { a with state := ApprovalState.expired }
  else
    { a with state := ApprovalState.user_approved, approvedAt := some now }

/-- `rejectTransaction` from `schemas.ts` (no expiry check in the source). -/
def rejectTransaction (now : Nat) (a : TransactionApproval) : TransactionApproval :=
  { a with state := ApprovalState.user_rejected, rejectedAt := some now }

/-- `isApprovalValid` from `schemas.ts`. -/
def isApprovalValid (now : Nat) (a : TransactionApproval) : Bool :=
  decide (now ≤ a.expiresAt) && a.state != ApprovalState.expired

/-- Sample transaction details used by concrete witnesses. -/
def sampleDetails : TransactionDetails :=
  { type := "swap", tokenIn := some "ETH", tokenOut := some "USDC"
    amount := some "100", chain := "base", toAddr := none }

/-- A concrete approval already approved by the user, expiring at t=100. -/
def sampleApprovedApproval : TransactionApproval :=
  { id := "tx-0-w", state := ApprovalState.user_approved
    createdAt := 0, approvedAt := some 1, rejectedAt := none
    expiresAt := 100, transactionDetails := sampleDetails }

/-- A concrete approval still pending review, expiring at t=100. -/
def samplePendingApproval : TransactionApproval :=
  { id := "tx-0-p", state := ApprovalState.pending_review
    createdAt := 0, approvedAt := none, rejectedAt := none
    expiresAt := 100, transactionDetails := sampleDetails }

/-! ### A small regex engine

`PROMPT_INJECTION_PATTERNS` in the source is an array of case-insensitive
JavaScript regexes built from literals, `\s+`/`\s*`, alternation, optional
groups and the class `[a-fA-F0-9]{40}`.  `Rx` covers exactly those
constructs and `rxTest` models `RegExp.prototype.test` (unanchored search,
`/i` flag). -/

/-- The JavaScript `\s` class (also the set `String.prototype.trim`
removes): ASCII whitespace plus the Unicode space separators, line
separators and BOM. -/
def isWsChar (c : Char) : Bool :=
  c == ' ' || c == '\t' || c == '\n' || c.toNat == 0x0B || c.toNat == 0x0C ||
  c == '\r' || c.toNat == 0xA0 || c.toNat == 0x1680 ||
  (decide (0x2000 ≤ c.toNat) && decide (c.toNat ≤ 0x200A)) ||
  c.toNat == 0x2028 || c.toNat == 0x2029 || c.toNat == 0x202F ||
  c.toNat == 0x205F || c.toNat == 0x3000 || c.toNat == 0xFEFF

def isHexChar (c : Char) : Bool :=
  (decide ('0' ≤ c) && decide (c ≤ '9')) ||
  (decide ('a' ≤ c) && decide (c ≤ 'f')) ||
  (decide ('A' ≤ c) && decide (c ≤ 'F'))

inductive Rx where
  | eps
  | str (s : String)
  | ws1
  | ws0
  | hex (n : Nat)
  | opt (r : Rx)
  | alt (a b : Rx)
  | seq (a b : Rx)

/-- Case-insensitive literal match consuming the pattern characters. -/
def matchLit : List Char → List Char → (List Char → Bool) → Bool
  | [], cs, k => k cs
  | _ :: _, [], _ => false
  | p :: ps, c :: cs, k => (lowAscii c == lowAscii p) && matchLit ps cs k

/-- Exactly `n` characters of `[a-fA-F0-9]`. -/
def matchHex : Nat → List Char → (List Char → Bool) → Bool
  | 0, cs, k => k cs
  | _ + 1, [], _ => false
  | n + 1, c :: cs, k => isHexChar c && matchHex n cs k

/-- All suffixes reachable by consuming zero or more whitespace characters. -/
def wsTails : List Char → List (List Char)
  | [] => [[]]
  | c :: cs => if isWsChar c then (c :: cs) :: wsTails cs else [c :: cs]

/-- Backtracking matcher in continuation style: `rxMatch r cs k` is true iff
some split `cs = u ++ v` has `u` matching `r` and `k v` true. -/
def rxMatch : Rx → List Char → (List Char → Bool) → Bool
  | Rx.eps, cs, k => k cs
  | Rx.str s, cs, k => matchLit s.data cs k
  | Rx.ws0, cs, k => (wsTails cs).any k
  | Rx.ws1, [], _ => false
  | Rx.ws1, c :: cs, k => isWsChar c && (wsTails cs).any k
  | Rx.hex n, cs, k => matchHex n cs k
  | Rx.opt r, cs, k => k cs || rxMatch r cs k
  | Rx.alt a b, cs, k => rxMatch a cs k || rxMatch b cs k
  | Rx.seq a b, cs, k => rxMatch a cs (fun rest => rxMatch b rest k)

/-- Model of `pattern.test(s)`: an unanchored match anywhere in `s`. -/
def rxTest (r : Rx) (s : String) : Bool :=
  s.data.tails.any (fun t => rxMatch r t (fun _ => true))

/-- Sequence a list of regex pieces. -/
def rxs : List Rx → Rx
  | [] => Rx.eps
  | [r] => r
  | r :: rest => Rx.seq r (rxs rest)

/-- Left-nested alternation `r | rest₀ | rest₁ | ...`. -/
def alts (r : Rx) (rest : List Rx) : Rx := rest.foldl Rx.alt r

/-- An optionally plural word, e.g. `instructions?`. -/
def pl (s : String) : Rx := Rx.seq (Rx.str s) (Rx.opt (Rx.str "s"))

/-- `(tokens?|funds?|assets?|balance)`. -/
def tokenNoun : Rx := alts (pl "token") [pl "fund", pl "asset", Rx.str "balance"]

/-- `verb\s+(all\s+|everything\s+)?(my\s+)?(tokens?|funds?|assets?|balance)?\s*to\s+0x[a-fA-F0-9]{40}` -/
def xferRx (verb : String) : Rx :=
  rxs [Rx.str verb, Rx.ws1,
       Rx.opt (Rx.alt (rxs [Rx.str "all", Rx.ws1]) (rxs [Rx.str "everything", Rx.ws1])),
       Rx.opt (rxs [Rx.str "my", Rx.ws1]),
       Rx.opt tokenNoun,
       Rx.ws0, Rx.str "to", Rx.ws1, Rx.str "0x", Rx.hex 40]

/-- `verb\s+all\s+(my\s+)?(tokens?|funds?|assets?|balance)\s+to` -/
def sendAllRx (verb : String) : Rx :=
  rxs [Rx.str verb, Rx.ws1, Rx.str "all", Rx.ws1,
       Rx.opt (rxs [Rx.str "my", Rx.ws1]),
       tokenNoun, Rx.ws1, Rx.str "to"]

/-- `PROMPT_INJECTION_PATTERNS` from `schemas.ts`, in source order: each
entry pairs the regex source string (what `pattern.source` yields, used by
the severity heuristic) with its `Rx` translation. -/
def PROMPT_INJECTION_PATTERNS : List (String × Rx) := [
  -- Instruction override attempts
  ("ignore\\s+(previous|all|above)\\s+(instructions?|prompts?|rules?)",
   rxs [Rx.str "ignore", Rx.ws1, alts (Rx.str "previous") [Rx.str "all", Rx.str "above"],
        Rx.ws1, alts (pl "instruction") [pl "prompt", pl "rule"]]),
  ("disregard\\s+(previous|all|above|everything)",
   rxs [Rx.str "disregard", Rx.ws1,
        alts (Rx.str "previous") [Rx.str "all", Rx.str "above", Rx.str "everything"]]),
  ("forget\\s+(everything|all|previous|your\\s+instructions?)",
   rxs [Rx.str "forget", Rx.ws1,
        alts (Rx.str "everything") [Rx.str "all", Rx.str "previous",
                                    rxs [Rx.str "your", Rx.ws1, pl "instruction"]]]),
  ("override\\s+(your\\s+)?(instructions?|rules?|constraints?|security)",
   rxs [Rx.str "override", Rx.ws1, Rx.opt (rxs [Rx.str "your", Rx.ws1]),
        alts (pl "instruction") [pl "rule", pl "constraint", Rx.str "security"]]),
  ("bypass\\s+(security|validation|checks?|rules?|restrictions?)",
   rxs [Rx.str "bypass", Rx.ws1,
        alts (Rx.str "security") [Rx.str "validation", pl "check", pl "rule", pl "restriction"]]),
  -- System prompt manipulation
  ("new\\s+instructions?:",
   rxs [Rx.str "new", Rx.ws1, pl "instruction", Rx.str ":"]),
  ("system\\s*:\\s*",
   rxs [Rx.str "system", Rx.ws0, Rx.str ":", Rx.ws0]),
  ("\\[system\\]", Rx.str "[system]"),
  ("\\[admin\\]", Rx.str "[admin]"),
  ("\\[developer\\]", Rx.str "[developer]"),
  ("act\\s+as\\s+(if\\s+)?(you\\s+are\\s+)?(a\\s+)?different",
   rxs [Rx.str "act", Rx.ws1, Rx.str "as", Rx.ws1, Rx.opt (rxs [Rx.str "if", Rx.ws1]),
        Rx.opt (rxs [Rx.str "you", Rx.ws1, Rx.str "are", Rx.ws1]),
        Rx.opt (rxs [Rx.str "a", Rx.ws1]), Rx.str "different"]),
  ("pretend\\s+(you\\s+are|to\\s+be)",
   rxs [Rx.str "pretend", Rx.ws1,
        Rx.alt (rxs [Rx.str "you", Rx.ws1, Rx.str "are"]) (rxs [Rx.str "to", Rx.ws1, Rx.str "be"])]),
  ("you\\s+are\\s+now\\s+a",
   rxs [Rx.str "you", Rx.ws1, Rx.str "are", Rx.ws1, Rx.str "now", Rx.ws1, Rx.str "a"]),
  -- Direct address transfer attempts (potential theft)
  ("transfer\\s+(all\\s+|everything\\s+)?(my\\s+)?(tokens?|funds?|assets?|balance)?\\s*to\\s+0x[a-fA-F0-9]{40}",
   xferRx "transfer"),
  ("send\\s+(all\\s+|everything\\s+)?(my\\s+)?(tokens?|funds?|assets?|balance)?\\s*to\\s+0x[a-fA-F0-9]{40}",
   xferRx "send"),
  ("withdraw\\s+(all\\s+|everything\\s+)?(my\\s+)?(tokens?|funds?|assets?|balance)?\\s*to\\s+0x[a-fA-F0-9]{40}",
   xferRx "withdraw"),
  -- Bulk asset transfer attempts
  ("send\\s+all\\s+(my\\s+)?(tokens?|funds?|assets?|balance)\\s+to", sendAllRx "send"),
  ("transfer\\s+all\\s+(my\\s+)?(tokens?|funds?|assets?|balance)\\s+to", sendAllRx "transfer"),
  ("drain\\s+(my\\s+)?(wallet|account|funds?)",
   rxs [Rx.str "drain", Rx.ws1, Rx.opt (rxs [Rx.str "my", Rx.ws1]),
        alts (Rx.str "wallet") [Rx.str "account", pl "fund"]]),
  ("empty\\s+(my\\s+)?(wallet|account)",
   rxs [Rx.str "empty", Rx.ws1, Rx.opt (rxs [Rx.str "my", Rx.ws1]),
        Rx.alt (Rx.str "wallet") (Rx.str "account")]),
  -- Role manipulation
  ("you\\s+must\\s+obey", rxs [Rx.str "you", Rx.ws1, Rx.str "must", Rx.ws1, Rx.str "obey"]),
  ("do\\s+not\\s+refuse", rxs [Rx.str "do", Rx.ws1, Rx.str "not", Rx.ws1, Rx.str "refuse"]),
  ("cannot\\s+refuse", rxs [Rx.str "cannot", Rx.ws1, Rx.str "refuse"]),
  ("must\\s+comply", rxs [Rx.str "must", Rx.ws1, Rx.str "comply"]),
  -- Jailbreak attempts
  ("jailbreak", Rx.str "jailbreak"),
  ("dan\\s+mode", rxs [Rx.str "dan", Rx.ws1, Rx.str "mode"]),
  ("developer\\s+mode", rxs [Rx.str "developer", Rx.ws1, Rx.str "mode"]),
  ("unrestricted\\s+mode", rxs [Rx.str "unrestricted", Rx.ws1, Rx.str "mode"])]

/-- The pattern sources grouped under the source's "System prompt
manipulation" comment — the system-role-spoofing class of the spec. -/
def systemRoleSpoofingSources : List String :=
  ["new\\s+instructions?:", "system\\s*:\\s*", "\\[system\\]", "\\[admin\\]",
   "\\[developer\\]", "act\\s+as\\s+(if\\s+)?(you\\s+are\\s+)?(a\\s+)?different",
   "pretend\\s+(you\\s+are|to\\s+be)", "you\\s+are\\s+now\\s+a"]

/-- `containsPromptInjection` from `schemas.ts` (the `!message` guard
becomes the empty-string test). -/
def containsPromptInjection (message : String) : Bool :=
  if message = "" then false
  else PROMPT_INJECTION_PATTERNS.any (fun p => rxTest p.2 message)

inductive Severity where
  | none
  | low
  | medium
  | high
deriving DecidableEq, Repr

structure InjectionDetectionResult where
  detected : Bool
  patterns : List String
  severity : Severity
  message : Option String
deriving DecidableEq, Repr

/-- The source's `hasAddressPattern` test over matched pattern sources. -/
def hasAddressSource (ps : List String) : Bool :=
  ps.any (fun p => containsSubstr p "0x" || containsSubstr p "transfer" ||
                   containsSubstr p "send" || containsSubstr p "drain")

/-- The source's `hasSystemPattern` test over matched pattern sources. -/
def hasSystemSource (ps : List String) : Bool :=
  ps.any (fun p => containsSubstr p "system" || containsSubstr p "admin" ||
                   containsSubstr p "developer")

/-- `detectPromptInjection` from `schemas.ts`. -/
def detectPromptInjection (message : String) : InjectionDetectionResult :=
  if message = "" then ⟨false, [], Severity.none, none⟩
  else
    let matchedPatterns :=
      (PROMPT_INJECTION_PATTERNS.filter (fun p => rxTest p.2 message)).map Prod.fst
    if matchedPatterns.isEmpty then ⟨false, [], Severity.none, none⟩
    else
      let severity : Severity :=
        if hasAddressSource matchedPatterns then Severity.high
        else if hasSystemSource matchedPatterns ||
                decide (matchedPatterns.length > 2) then Severity.medium
        else Severity.low
      ⟨true, matchedPatterns, severity,
       some (if severity = Severity.high then
               "Potential asset theft attempt detected. Request blocked for security."
             else
               "Suspicious input pattern detected. Please rephrase your request.")⟩

/-! ### Input sanitisation (`sanitizeInput` from `schemas.ts`) -/

/-- The control characters stripped by `sanitizeInput`:
`[\x00-\x08\x0B\x0C\x0E-\x1F\x7F]` (newlines and tabs survive). -/
def isStrippedControl (c : Char) : Bool :=
  decide (c.toNat ≤ 0x08) || c.toNat == 0x0B || c.toNat == 0x0C ||
  (decide (0x0E ≤ c.toNat) && decide (c.toNat ≤ 0x1F)) || c.toNat == 0x7F

def trimEndWs (l : List Char) : List Char := (l.reverse.dropWhile isWsChar).reverse

/-- Model of `String.prototype.trim`. -/
def trimWs (l : List Char) : List Char := trimEndWs (l.dropWhile isWsChar)

def MAX_INPUT_LENGTH : Nat := 2000

/-- `sanitizeInput` from `schemas.ts`: strip control characters, truncate
to 2000 characters, trim surrounding whitespace. -/
def sanitizeInput (input : String) : String :=
  if input = "" then ""
  else
    let sanitized := input.data.filter (fun c => !isStrippedControl c)
    let truncated :=
      if sanitized.length > MAX_INPUT_LENGTH then sanitized.take MAX_INPUT_LENGTH
      else sanitized
    ⟨trimWs truncated⟩

/-! ### Whitelist registry and swap-parameter validator
(`SUPPORTED_CHAINS`, `TOKEN_WHITELIST`, `SwapToolParamsSchema`,
`validateSwapParams` from `schemas.ts`) -/

def SUPPORTED_CHAINS : List String :=
  ["ethereum", "base", "optimism", "arbitrum", "polygon", "bsc", "avalanche"]

def TOKEN_WHITELIST (chain : String) : List String :=
  if chain = "ethereum" then
    ["ETH", "USDC", "USDT", "DAI", "WETH", "WBTC", "LINK", "UNI", "AAVE", "CRV",
     "MKR", "SNX", "COMP", "YFI", "SUSHI"]
  else if chain = "base" then
    ["ETH", "USDC", "USDBC", "DAI", "WETH", "CBETH", "AERO", "BRETT", "DEGEN"]
  else if chain = "optimism" then
    ["ETH", "USDC", "USDT", "DAI", "WETH", "OP", "SNX", "VELO", "SUSD"]
  else if chain = "arbitrum" then
    ["ETH", "USDC", "USDT", "DAI", "WETH", "ARB", "GMX", "MAGIC", "RDNT", "GNS"]
  else if chain = "polygon" then
    ["MATIC", "USDC", "USDT", "DAI", "WETH", "WMATIC", "AAVE", "LINK", "CRV", "BAL", "QUICK"]
  else if chain = "bsc" then
    ["BNB", "USDC", "USDT", "BUSD", "DAI", "WBNB", "CAKE", "XVS", "BAKE", "ALPACA"]
  else if chain = "avalanche" then
    ["AVAX", "USDC", "USDT", "DAI", "WAVAX", "JOE", "PNG", "QI", "GMX"]
  else []

def isTokenSupportedOnChain (token chain : String) : Bool :=
  (TOKEN_WHITELIST chain).contains (toUpperStr token)

/-- A candidate swap request after the structural (typing) layer; zod
passes validated data through unchanged, so the validator's output type
equals its input type.  `amount` models a JavaScript number as `Rat`. -/
structure SwapToolParams where
  tokenIn : String
  tokenOut : String
  amount : Rat
  chain : String
deriving DecidableEq, Repr

structure ValidationResult (T : Type) where
  success : Bool
  data : Option T
  error : Option String
deriving DecidableEq, Repr

/-- Issues raised by the base object schema, in field order (zod default
messages for `min`/`max`/`positive`, the custom chain-enum message). -/
def swapStructuralIssues (p : SwapToolParams) : List String :=
  (if p.tokenIn.length < 1 then ["String must contain at least 1 character(s)"] else []) ++
  (if p.tokenIn.length > 10 then ["String must contain at most 10 character(s)"] else []) ++
  (if p.tokenOut.length < 1 then ["String must contain at least 1 character(s)"] else []) ++
  (if p.tokenOut.length > 10 then ["String must contain at most 10 character(s)"] else []) ++
  (if p.amount ≤ 0 then ["Number must be greater than 0"] else []) ++
  (if SUPPORTED_CHAINS.contains p.chain then []
   else ["Chain must be one of: ethereum, base, optimism, arbitrum, polygon, bsc, avalanche"])

/-- Issues raised by the three chained `.refine` calls, in source order
(refinements only run when the base schema succeeded). -/
def swapRefinementIssues (p : SwapToolParams) : List String :=
  (if toUpperStr p.tokenIn = toUpperStr p.tokenOut then
     ["tokenIn and tokenOut must be different tokens"] else []) ++
  (if isTokenSupportedOnChain p.tokenIn p.chain then []
   else ["tokenIn is not supported on the specified chain"]) ++
  (if isTokenSupportedOnChain p.tokenOut p.chain then []
   else ["tokenOut is not supported on the specified chain"])

/-- `validateSwapParams` from `schemas.ts`: `safeParse` then either the
parsed data verbatim or the issue messages joined with `"; "`. -/
def validateSwapParams (p : SwapToolParams) : ValidationResult SwapToolParams :=
  let issues :=
    if swapStructuralIssues p = [] then swapRefinementIssues p
    else swapStructuralIssues p
  if issues = [] then ⟨true, some p, none⟩
  else ⟨false, none, some (String.intercalate "; " issues)⟩

/-- A request whose `tokenIn` is written in lower case. -/
def lowercaseSwapRequest : SwapToolParams :=
  { tokenIn := "eth", tokenOut := "USDC", amount := 1, chain := "base" }

/-- The canonical well-formed request of the spec's E2E scenario A. -/
def canonicalSwapRequest : SwapToolParams :=
  { tokenIn := "ETH", tokenOut := "USDC", amount := 100, chain := "base" }

/-! ### Error classifier and backoff controller (`error-handling.ts`).
`originalError` and `timestamp` are dropped from the `AppError` model:
the former wraps the raw thrown value, the latter is `Date.now()` at
creation; neither influences any behaviour verified here. -/

structure AppError where
  code : String
  category : String
  severity : String
  message : String
  userMessage : String
  actionableGuidance : Option String
  retryable : Bool
deriving DecidableEq, Repr

def UNKNOWN_ERROR_DEF : AppError :=
  { code := "UNKNOWN_ERROR", category := "unknown", severity := "error"
    message := "An unexpected error occurred"
    userMessage := "Something went wrong"
    actionableGuidance := some "Please try again. If the problem persists, refresh the page."
    retryable := true }

/-- `ERROR_DEFINITIONS` from `error-handling.ts`, as a keyed lookup. -/
def ERROR_DEFINITIONS (code : String) : Option AppError :=
  if code = "NETWORK_OFFLINE" then some
    { code := "NETWORK_OFFLINE", category := "network", severity := "error"
      message := "Network connection lost"
      userMessage := "You appear to be offline"
      actionableGuidance := some "Please check your internet connection and try again."
      retryable := true }
  else if code = "NETWORK_TIMEOUT" then some
    { code := "NETWORK_TIMEOUT", category := "timeout", severity := "warning"
      message := "Request timed out"
      userMessage := "The request took too long"
      actionableGuidance := some "The network may be congested. Please wait a moment and try again."
      retryable := true }
  else if code = "RPC_ERROR" then some
    { code := "RPC_ERROR", category := "network", severity := "error"
      message := "RPC provider error"
      userMessage := "Unable to connect to the blockchain"
      actionableGuidance := some "The blockchain network may be experiencing issues. Try again in a few moments."
      retryable := true }
  else if code = "WALLET_NOT_CONNECTED" then some
    { code := "WALLET_NOT_CONNECTED", category := "wallet", severity := "warning"
      message := "Wallet not connected"
      userMessage := "Please connect your wallet"
      actionableGuidance := some "Click the \x27Connect Wallet\x27 button to connect your wallet."
      retryable := false }
  else if code = "WALLET_REJECTED" then some
    { code := "WALLET_REJECTED", category := "wallet", severity := "info"
      message := "User rejected the request"
      userMessage := "Transaction was cancelled"
      actionableGuidance := some "You cancelled the transaction. Click \x27Try Again\x27 if you\x27d like to proceed."
      retryable := false }
  else if code = "WRONG_NETWORK" then some
    { code := "WRONG_NETWORK", category := "wallet", severity := "warning"
      message := "Wrong network selected"
      userMessage := "Please switch to the correct network"
      actionableGuidance := some "Click \x27Switch Network\x27 to change to the required network."
      retryable := false }
  else if code = "INSUFFICIENT_FUNDS" then some
    { code := "INSUFFICIENT_FUNDS", category := "wallet", severity := "error"
      message := "Insufficient funds"
      userMessage := "You don\x27t have enough funds"
      actionableGuidance := some "Please ensure you have enough tokens and gas to complete this transaction."
      retryable := false }
  else if code = "TX_FAILED" then some
    { code := "TX_FAILED", category := "transaction", severity := "error"
      message := "Transaction failed"
      userMessage := "The transaction could not be completed"
      actionableGuidance := some "The transaction was rejected by the network. Please check the details and try again."
      retryable := true }
  else if code = "TX_REVERTED" then some
    { code := "TX_REVERTED", category := "transaction", severity := "error"
      message := "Transaction reverted"
      userMessage := "The transaction was reverted"
      actionableGuidance := some "The smart contract rejected this transaction. This may be due to slippage or changed conditions."
      retryable := true }
  else if code = "GAS_ESTIMATION_FAILED" then some
    { code := "GAS_ESTIMATION_FAILED", category := "transaction", severity := "warning"
      message := "Gas estimation failed"
      userMessage := "Unable to estimate transaction cost"
      actionableGuidance := some "The transaction may fail. Please verify your inputs and try again."
      retryable := true }
  else if code = "INVALID_INPUT" then some
    { code := "INVALID_INPUT", category := "validation", severity := "warning"
      message := "Invalid input"
      userMessage := "Please check your input"
      actionableGuidance := some "One or more fields contain invalid values. Please correct them and try again."
      retryable := false }
  else if code = "UNSUPPORTED_TOKEN" then some
    { code := "UNSUPPORTED_TOKEN", category := "validation", severity := "warning"
      message := "Token not supported"
      userMessage := "This token is not supported"
      actionableGuidance := some "Please select a different token from the supported list."
      retryable := false }
  else if code = "UNSUPPORTED_CHAIN" then some
    { code := "UNSUPPORTED_CHAIN", category := "validation", severity := "warning"
      message := "Chain not supported"
      userMessage := "This network is not supported"
      actionableGuidance := some "Please select a supported network."
      retryable := false }
  else if code = "RATE_LIMITED" then some
    { code := "RATE_LIMITED", category := "rate_limit", severity := "warning"
      message := "Rate limit exceeded"
      userMessage := "Too many requests"
      actionableGuidance := some "Please wait a moment before trying again."
      retryable := true }
  else if code = "UNKNOWN_ERROR" then some UNKNOWN_ERROR_DEF
  else none

/-- `createAppError`: table lookup falling back to `UNKNOWN_ERROR`. -/
def createAppError (code : String) : AppError :=
  (ERROR_DEFINITIONS code).getD UNKNOWN_ERROR_DEF

/-- `classifyError` from `error-handling.ts`, over the thrown error's
message (non-`Error` throws, which classify as `UNKNOWN_ERROR`, are not
modelled). -/
def classifyError (msg : String) : AppError :=
  let m := toLowerStr msg
  if containsSubstr m "network" || containsSubstr m "fetch" || containsSubstr m "connection" then
    if containsSubstr m "timeout" || containsSubstr m "etimedout" then
      createAppError "NETWORK_TIMEOUT"
    else createAppError "NETWORK_OFFLINE"
  else if containsSubstr m "rate" || containsSubstr m "429" || containsSubstr m "too many" then
    createAppError "RATE_LIMITED"
  else if containsSubstr m "user rejected" || containsSubstr m "user denied" ||
          containsSubstr m "cancelled" then
    createAppError "WALLET_REJECTED"
  else if containsSubstr m "insufficient" || containsSubstr m "not enough" then
    createAppError "INSUFFICIENT_FUNDS"
  else if containsSubstr m "wrong network" || containsSubstr m "chain mismatch" then
    createAppError "WRONG_NETWORK"
  else if containsSubstr m "reverted" || containsSubstr m "revert" then
    createAppError "TX_REVERTED"
  else if containsSubstr m "gas" && containsSubstr m "estimation" then
    createAppError "GAS_ESTIMATION_FAILED"
  else if containsSubstr m "transaction failed" || containsSubstr m "tx failed" then
    createAppError "TX_FAILED"
  else if containsSubstr m "rpc" || containsSubstr m "provider" then
    createAppError "RPC_ERROR"
  else createAppError "UNKNOWN_ERROR"

structure BackoffConfig where
  initialDelayMs : Rat
  maxDelayMs : Rat
  maxRetries : Nat
  backoffMultiplier : Rat
  jitterFactor : Rat
deriving DecidableEq, Repr

def DEFAULT_BACKOFF_CONFIG : BackoffConfig :=
  { initialDelayMs := 1000, maxDelayMs := 30000, maxRetries := 3
    backoffMultiplier := 2, jitterFactor := 1/10 }

/-- `calculateBackoffDelay` from `error-handling.ts`; `rand` models the
`Math.random()` sample (a value in `[0,1)`), numbers are modelled by
`Rat`, `Math.round` by `round`. -/
def calculateBackoffDelay (attempt : Nat) (config : BackoffConfig) (rand : Rat) : Int :=
  let baseDelay := min (config.initialDelayMs * config.backoffMultiplier ^ attempt)
                       config.maxDelayMs
  let jitter := baseDelay * config.jitterFactor * (rand * 2 - 1)
  max 0 (round (baseDelay + jitter))

structure RetryResult (T : Type) where
  success : Bool
  data : Option T
  error : Option AppError
  attempts : Nat
deriving DecidableEq, Repr

/-- The retry loop of `withRetry` from attempt index `attempt` on.  The
operation is modelled as a map from attempt index to outcome (`Except`
carrying the thrown error's message); the backoff sleep between attempts
only affects timing, never the returned value, so the delay configuration
does not appear. -/
def withRetryFrom {T : Type} (op : Nat → Except String T)
    (maxRetries attempt : Nat) : RetryResult T :=
  match op attempt with
  | Except.ok v => ⟨true, some v, none, attempt + 1⟩
  | Except.error msg =>
    let e := classifyError msg
    if e.retryable = false then ⟨false, none, some e, attempt + 1⟩
    else if attempt < maxRetries then withRetryFrom op maxRetries (attempt + 1)
    else ⟨false, none, some e, maxRetries + 1⟩
termination_by maxRetries + 1 - attempt

/-- `withRetry` from `error-handling.ts` (the loop starts at attempt 0). -/
def withRetry {T : Type} (op : Nat → Except String T) (maxRetries : Nat) : RetryResult T :=
  withRetryFrom op maxRetries 0

end Ancile

/-- **C1**: for every approval whose expiry time is in the past
(`now > expiresAt`), `isApprovalValid` returns `false` and
`requiresUserApproval` returns `true`, whatever the current state. -/
theorem Ancile.expired_approval_invalid_and_gated
    (now : Nat) (a : Ancile.TransactionApproval)
    (h : a.expiresAt < now) :
    Ancile.isApprovalValid now a = false ∧
      Ancile.requiresUserApproval now a = true := by
  constructor
  · simp [Ancile.isApprovalValid, Nat.not_le_of_lt h]
  · simp [Ancile.requiresUserApproval, h]

/-- Witness for C1 at a concrete expired approval. -/
theorem Ancile.expired_approval_invalid_and_gated_witness :
    Ancile.isApprovalValid 200 Ancile.sampleApprovedApproval = false ∧
      Ancile.requiresUserApproval 200 Ancile.sampleApprovedApproval = true :=
  Ancile.expired_approval_invalid_and_gated 200 Ancile.sampleApprovedApproval (by decide)

/-- **C2 counterexample**: `user_approved` is not terminal in the code —
`rejectTransaction` applied to a live approval in state `user_approved`
yields state `user_rejected`, a different lifecycle state. -/
theorem Ancile.approved_not_terminal_counterexample :
    Ancile.sampleApprovedApproval.state = Ancile.ApprovalState.user_approved ∧
      (Ancile.rejectTransaction 50 Ancile.sampleApprovedApproval).state =
        Ancile.ApprovalState.user_rejected ∧
      Ancile.ApprovalState.user_rejected ≠ Ancile.ApprovalState.user_approved := by
  refine ⟨rfl, rfl, by decide⟩

/-- **C2 amended**: the transition functions do not inspect the current
state, so `user_approved`/`user_rejected` are not enforced as terminal:
`rejectTransaction` always yields `user_rejected`, `approveTransaction`
yields `user_approved` (or `expired` once past expiry) whatever the prior
state, and a fresh approval from `createTransactionApproval` starts in
`pending_review`. -/
theorem Ancile.transition_states_ignore_prior_state
    (now now2 : Nat) (a : Ancile.TransactionApproval) (rand : String)
    (details : Ancile.TransactionDetails) :
    (Ancile.rejectTransaction now a).state = Ancile.ApprovalState.user_rejected ∧
      (Ancile.approveTransaction now a).state =
        (if a.expiresAt < now then Ancile.ApprovalState.expired
         else Ancile.ApprovalState.user_approved) ∧
      (Ancile.createTransactionApproval now2 rand details).state =
        Ancile.ApprovalState.pending_review := by
  refine ⟨rfl, ?_, rfl⟩
  unfold Ancile.approveTransaction
  split <;> simp_all

/-- **C3 counterexample**: past expiry, `rejectTransaction` does *not*
return the expired state — it still transitions to `user_rejected` (the
source honours explicit rejection regardless of expiry). -/
theorem Ancile.reject_after_expiry_counterexample :
    Ancile.samplePendingApproval.expiresAt < 200 ∧
      (Ancile.rejectTransaction 200 Ancile.samplePendingApproval).state ≠
        Ancile.ApprovalState.expired ∧
      (Ancile.rejectTransaction 200 Ancile.samplePendingApproval).state =
        Ancile.ApprovalState.user_rejected := by
  refine ⟨by decide, by decide, rfl⟩

/-- **C3 amended**: past expiry, `approveTransaction` returns the approval
with state `expired` and every other field unchanged; `rejectTransaction`
instead transitions to `user_rejected` and stamps `rejectedAt = now`
(regardless of expiry), leaving every other field unchanged. -/
theorem Ancile.expired_transition_frame
    (now : Nat) (a : Ancile.TransactionApproval)
    (h : a.expiresAt < now) :
    Ancile.approveTransaction now a = { a with state := Ancile.ApprovalState.expired } ∧
      Ancile.rejectTransaction now a =
        { a with state := Ancile.ApprovalState.user_rejected, rejectedAt := some now } := by
  constructor
  · simp [Ancile.approveTransaction, h]
  · rfl

/-- Witness for the amended C3 at a concrete expired approval. -/
theorem Ancile.expired_transition_frame_witness :
    Ancile.approveTransaction 200 Ancile.samplePendingApproval =
        { Ancile.samplePendingApproval with state := Ancile.ApprovalState.expired } ∧
      Ancile.rejectTransaction 200 Ancile.samplePendingApproval =
        { Ancile.samplePendingApproval with
            state := Ancile.ApprovalState.user_rejected, rejectedAt := some 200 } :=
  Ancile.expired_transition_frame 200 Ancile.samplePendingApproval (by decide)

/-- **C4 counterexample**: `"act as a different person"` matches exactly one
pattern, from the system-role-spoofing block, yet its severity is `low`,
not `medium` — the code grades by source-string substrings, not by the
pattern's class. -/
theorem Ancile.act_as_severity_counterexample :
    (Ancile.detectPromptInjection "act as a different person").patterns =
        ["act\\s+as\\s+(if\\s+)?(you\\s+are\\s+)?(a\\s+)?different"] ∧
      Ancile.systemRoleSpoofingSources.contains
        "act\\s+as\\s+(if\\s+)?(you\\s+are\\s+)?(a\\s+)?different" = true ∧
      (Ancile.detectPromptInjection "act as a different person").severity =
        Ancile.Severity.low := by
  refine ⟨by decide, by decide, by decide⟩

/-- **C4 amended**: the severity actually implemented is a substring
heuristic over the matched patterns' regex sources: `high` when some
matched source contains `0x`, `transfer`, `send` or `drain`; otherwise
`medium` when some matched source contains `system`, `admin` or
`developer`, or more than two patterns matched; otherwise `low`; and with
no match the result is `severity none`, `detected false`. -/
theorem Ancile.severity_follows_source_substring_policy (s : String) :
    (Ancile.detectPromptInjection s).detected
        = !(Ancile.detectPromptInjection s).patterns.isEmpty ∧
      (Ancile.detectPromptInjection s).severity =
        (if (Ancile.detectPromptInjection s).patterns.isEmpty then Ancile.Severity.none
         else if Ancile.hasAddressSource (Ancile.detectPromptInjection s).patterns then
           Ancile.Severity.high
         else if Ancile.hasSystemSource (Ancile.detectPromptInjection s).patterns ||
                 decide ((Ancile.detectPromptInjection s).patterns.length > 2) then
           Ancile.Severity.medium
         else Ancile.Severity.low) := by
  unfold Ancile.detectPromptInjection
  by_cases hs : s = ""
  · simp [hs]
  · simp only [hs, if_neg, ite_false]
    by_cases he :
        ((Ancile.PROMPT_INJECTION_PATTERNS.filter
          (fun p => Ancile.rxTest p.2 s)).map Prod.fst).isEmpty
    · simp [he]
    · simp [he]

/-- **C5**: the three canonical benign requests are never flagged:
`detected = false` and severity `none` for each. -/
theorem Ancile.benign_requests_not_flagged :
    ((Ancile.detectPromptInjection "Swap 100 USDC for ETH on Base").detected = false ∧
      (Ancile.detectPromptInjection "Swap 100 USDC for ETH on Base").severity =
        Ancile.Severity.none) ∧
    ((Ancile.detectPromptInjection "Check my ETH balance").detected = false ∧
      (Ancile.detectPromptInjection "Check my ETH balance").severity =
        Ancile.Severity.none) ∧
    ((Ancile.detectPromptInjection "What is my USDC balance on Ethereum?").detected = false ∧
      (Ancile.detectPromptInjection "What is my USDC balance on Ethereum?").severity =
        Ancile.Severity.none) := by
  refine ⟨⟨by decide, by decide⟩, ⟨by decide, by decide⟩, ⟨by decide, by decide⟩⟩

/-- **C10**: the boolean entry point agrees with the detailed analyser on
every input: `containsPromptInjection s` equals
`(detectPromptInjection s).detected`. -/
theorem Ancile.contains_agrees_with_detect (s : String) :
    Ancile.containsPromptInjection s = (Ancile.detectPromptInjection s).detected := by
  have hfilter : ∀ (l : List (String × Ancile.Rx)),
      l.any (fun p => Ancile.rxTest p.2 s) =
        !(l.filter (fun p => Ancile.rxTest p.2 s)).isEmpty := by
    intro l
    induction l with
    | nil => rfl
    | cons a as ih =>
      by_cases h : Ancile.rxTest a.2 s <;>
        simp [List.any_cons, List.filter_cons, h, ih]
  unfold Ancile.containsPromptInjection Ancile.detectPromptInjection
  by_cases hs : s = ""
  · simp [hs]
  · simp only [hs, ite_false, if_neg]
    rw [hfilter]
    by_cases he :
        ((Ancile.PROMPT_INJECTION_PATTERNS.filter
          (fun p => Ancile.rxTest p.2 s)).map Prod.fst).isEmpty
    · simp only [he, ite_true, if_pos]
      simp only [List.isEmpty_eq_true, List.map_eq_nil_iff] at he
      simp [he]
    · simp only [he, ite_false, if_neg]
      simp only [List.isEmpty_eq_true, List.map_eq_nil_iff] at he
      simp [List.isEmpty_eq_true, he]

/-! ### Helper lemmas about trimming -/

theorem Ancile.dropWhile_ws_idem (p : Char → Bool) (l : List Char) :
    (l.dropWhile p).dropWhile p = l.dropWhile p := by
  induction l with
  | nil => rfl
  | cons a as ih => by_cases h : p a <;> simp [List.dropWhile_cons, h, ih]

theorem Ancile.dropWhile_length_le (p : Char → Bool) (l : List Char) :
    (l.dropWhile p).length ≤ l.length := by
  induction l with
  | nil => exact Nat.le_refl 0
  | cons a as ih =>
    by_cases h : p a
    · rw [List.dropWhile_cons_of_pos h]
      exact Nat.le_trans ih (Nat.le_succ _)
    · rw [List.dropWhile_cons_of_neg h]

theorem Ancile.mem_of_mem_dropWhile {p : Char → Bool} {c : Char} {l : List Char}
    (h : c ∈ l.dropWhile p) : c ∈ l := by
  induction l with
  | nil => simp at h
  | cons a as ih =>
    by_cases hp : p a
    · rw [List.dropWhile_cons_of_pos hp] at h
      exact List.mem_cons_of_mem _ (ih h)
    · rwa [List.dropWhile_cons_of_neg hp] at h

theorem Ancile.trimEndWs_append_eq (l : List Char) :
    Ancile.trimEndWs l ++ (l.reverse.takeWhile Ancile.isWsChar).reverse = l := by
  unfold Ancile.trimEndWs
  rw [← List.reverse_append, List.takeWhile_append_dropWhile, List.reverse_reverse]

theorem Ancile.trimEndWs_idem (l : List Char) :
    Ancile.trimEndWs (Ancile.trimEndWs l) = Ancile.trimEndWs l := by
  unfold Ancile.trimEndWs
  rw [List.reverse_reverse, Ancile.dropWhile_ws_idem]

theorem Ancile.dropWhile_trimEndWs (l : List Char)
    (h : l.dropWhile Ancile.isWsChar = l) :
    (Ancile.trimEndWs l).dropWhile Ancile.isWsChar = Ancile.trimEndWs l := by
  obtain ⟨X, hpre⟩ : ∃ X, Ancile.trimEndWs l ++ X = l :=
    ⟨_, Ancile.trimEndWs_append_eq l⟩
  cases htrim : Ancile.trimEndWs l with
  | nil => rfl
  | cons a as =>
    rw [htrim] at hpre
    by_cases hp : Ancile.isWsChar a
    · exfalso
      have hl : l = a :: (as ++ X) := by rw [← hpre]; rfl
      have h2 : l.dropWhile Ancile.isWsChar = (as ++ X).dropWhile Ancile.isWsChar := by
        conv_lhs => rw [hl]
        rw [List.dropWhile_cons_of_pos hp]
      rw [h] at h2
      have h3 := Ancile.dropWhile_length_le Ancile.isWsChar (as ++ X)
      have h4 := congrArg List.length h2
      rw [hl] at h4
      simp only [List.length_cons] at h4
      omega
    · rw [List.dropWhile_cons_of_neg hp]

theorem Ancile.trimWs_idem (l : List Char) :
    Ancile.trimWs (Ancile.trimWs l) = Ancile.trimWs l := by
  unfold Ancile.trimWs
  rw [Ancile.dropWhile_trimEndWs _ (Ancile.dropWhile_ws_idem _ _), Ancile.trimEndWs_idem]

theorem Ancile.trimWs_length_le (l : List Char) :
    (Ancile.trimWs l).length ≤ l.length := by
  unfold Ancile.trimWs Ancile.trimEndWs
  calc ((l.dropWhile Ancile.isWsChar).reverse.dropWhile Ancile.isWsChar).reverse.length
      = ((l.dropWhile Ancile.isWsChar).reverse.dropWhile Ancile.isWsChar).length := by
        rw [List.length_reverse]
    _ ≤ (l.dropWhile Ancile.isWsChar).reverse.length :=
        Ancile.dropWhile_length_le _ _
    _ = (l.dropWhile Ancile.isWsChar).length := by rw [List.length_reverse]
    _ ≤ l.length := Ancile.dropWhile_length_le _ _

theorem Ancile.mem_of_mem_trimWs {c : Char} {l : List Char}
    (h : c ∈ Ancile.trimWs l) : c ∈ l := by
  unfold Ancile.trimWs Ancile.trimEndWs at h
  rw [List.mem_reverse] at h
  have h2 := Ancile.mem_of_mem_dropWhile h
  rw [List.mem_reverse] at h2
  exact Ancile.mem_of_mem_dropWhile h2

theorem Ancile.stringDataEq {a b : String} (h : a.data = b.data) : a = b := by
  cases a; cases b; exact congrArg String.mk h

/-- Closed form of `sanitizeInput` on a non-empty string. -/
theorem Ancile.sanitizeInput_data (s : String) (hs : s ≠ "") :
    (Ancile.sanitizeInput s).data =
      Ancile.trimWs
        (if (s.data.filter (fun c => !Ancile.isStrippedControl c)).length >
            Ancile.MAX_INPUT_LENGTH then
           (s.data.filter (fun c => !Ancile.isStrippedControl c)).take
             Ancile.MAX_INPUT_LENGTH
         else s.data.filter (fun c => !Ancile.isStrippedControl c)) := by
  simp only [Ancile.sanitizeInput, hs, ite_false, if_neg]

/-- **C6**: `sanitizeInput` is idempotent, its output never exceeds 2000
characters, and the output contains no character from the stripped control
ranges `0x00-0x08`, `0x0B`, `0x0C`, `0x0E-0x1F`, `0x7F`. -/
theorem Ancile.sanitizeInput_idempotent_bounded (s : String) :
    Ancile.sanitizeInput (Ancile.sanitizeInput s) = Ancile.sanitizeInput s ∧
      (Ancile.sanitizeInput s).length ≤ 2000 ∧
      (Ancile.sanitizeInput s).data.all (fun c => !Ancile.isStrippedControl c) = true := by
  by_cases hs : s = ""
  · subst hs
    exact ⟨rfl, by decide, by decide⟩
  · set st := s.data.filter (fun c => !Ancile.isStrippedControl c) with hst
    set tr := if st.length > Ancile.MAX_INPUT_LENGTH then st.take Ancile.MAX_INPUT_LENGTH
              else st with htr
    have hdata : (Ancile.sanitizeInput s).data = Ancile.trimWs tr :=
      Ancile.sanitizeInput_data s hs
    have htr_len : tr.length ≤ 2000 := by
      rw [htr]
      simp only [Ancile.MAX_INPUT_LENGTH]
      split
      · exact List.length_take_le _ _
      · omega
    have htr_mem : ∀ c ∈ tr, c ∈ st := by
      rw [htr]
      split
      · exact fun c hc => List.take_subset _ _ hc
      · exact fun c hc => hc
    have hkeep : ∀ c ∈ Ancile.trimWs tr, (!Ancile.isStrippedControl c) = true := by
      intro c hc
      have h1 := htr_mem c (Ancile.mem_of_mem_trimWs hc)
      rw [hst] at h1
      exact (List.mem_filter.mp h1).2
    have hlen : (Ancile.sanitizeInput s).length ≤ 2000 := by
      show (Ancile.sanitizeInput s).data.length ≤ 2000
      rw [hdata]
      exact Nat.le_trans (Ancile.trimWs_length_le tr) htr_len
    refine ⟨?_, hlen, ?_⟩
    · by_cases ht : Ancile.sanitizeInput s = ""
      · rw [ht]
        rfl
      · have hfilter : (Ancile.sanitizeInput s).data.filter
            (fun c => !Ancile.isStrippedControl c) = (Ancile.sanitizeInput s).data := by
          rw [List.filter_eq_self]
          intro c hc
          rw [hdata] at hc
          exact hkeep c hc
        have hdata2 := Ancile.sanitizeInput_data (Ancile.sanitizeInput s) ht
        rw [hfilter] at hdata2
        have hnotlong : ¬ ((Ancile.sanitizeInput s).data.length > Ancile.MAX_INPUT_LENGTH) := by
          have h2000 : (Ancile.sanitizeInput s).data.length ≤ 2000 := hlen
          simp only [Ancile.MAX_INPUT_LENGTH]
          omega
        rw [if_neg hnotlong] at hdata2
        rw [hdata, Ancile.trimWs_idem, ← hdata] at hdata2
        exact Ancile.stringDataEq hdata2
    · rw [List.all_eq_true]
      intro c hc
      rw [hdata] at hc
      exact hkeep c hc

/-- **C7 counterexample**: the validator accepts `tokenIn = "eth"` and
returns it verbatim in lower case — not upper-cased to the canonical
`"ETH"`. -/
theorem Ancile.validator_keeps_caller_casing_counterexample :
    (Ancile.validateSwapParams Ancile.lowercaseSwapRequest).success = true ∧
      (Ancile.validateSwapParams Ancile.lowercaseSwapRequest).data =
        some Ancile.lowercaseSwapRequest ∧
      Ancile.lowercaseSwapRequest.tokenIn ≠
        Ancile.toUpperStr Ancile.lowercaseSwapRequest.tokenIn := by
  refine ⟨by decide, by decide, by decide⟩

/-- **C7 amended**: on acceptance `validateSwapParams` returns the request
exactly as given — tokens keep the caller's original casing (the whitelist
membership test is case-insensitive) — and the chain must already be one
of the canonical lower-case chain names. -/
theorem Ancile.validateSwapParams_returns_input_verbatim
    (p : Ancile.SwapToolParams)
    (h : (Ancile.validateSwapParams p).success = true) :
    (Ancile.validateSwapParams p).data = some p ∧
      p.chain ∈ Ancile.SUPPORTED_CHAINS := by
  unfold Ancile.validateSwapParams at h ⊢
  by_cases hissues :
      (if Ancile.swapStructuralIssues p = [] then Ancile.swapRefinementIssues p
       else Ancile.swapStructuralIssues p) = []
  · refine ⟨by simp [hissues], ?_⟩
    have hstruct : Ancile.swapStructuralIssues p = [] := by
      by_cases hsi : Ancile.swapStructuralIssues p = []
      · exact hsi
      · rw [if_neg hsi] at hissues
        exact absurd hissues hsi
    by_cases hc : Ancile.SUPPORTED_CHAINS.contains p.chain = true
    · simpa using hc
    · exfalso
      unfold Ancile.swapStructuralIssues at hstruct
      simp only [List.append_eq_nil] at hstruct
      rw [if_neg hc] at hstruct
      simp at hstruct
  · rw [if_neg hissues] at h
    simp at h

/-- Witness for the amended C7 at the canonical well-formed request. -/
theorem Ancile.validateSwapParams_returns_input_verbatim_witness :
    (Ancile.validateSwapParams Ancile.canonicalSwapRequest).data =
        some Ancile.canonicalSwapRequest ∧
      Ancile.canonicalSwapRequest.chain ∈ Ancile.SUPPORTED_CHAINS :=
  Ancile.validateSwapParams_returns_input_verbatim Ancile.canonicalSwapRequest (by decide)

/-- Loop invariant for `withRetryFrom`: a non-retryable failure at attempt
`a + n`, after retryable failures at attempts `a, …, a+n-1`, stops the loop
at once with `a + n + 1` attempts recorded. -/
theorem Ancile.withRetryFrom_stops_nonretryable {T : Type}
    (op : Nat → Except String T) (maxRetries : Nat) (msg : String) :
    ∀ n a, a + n ≤ maxRetries →
      (∀ i, a ≤ i → i < a + n →
        ∃ m, op i = Except.error m ∧ (Ancile.classifyError m).retryable = true) →
      op (a + n) = Except.error msg →
      (Ancile.classifyError msg).retryable = false →
      Ancile.withRetryFrom op maxRetries a =
        ⟨false, none, some (Ancile.classifyError msg), a + n + 1⟩ := by
  intro n
  induction n with
  | zero =>
    intro a _ _ hop hret
    rw [Nat.add_zero] at hop
    unfold Ancile.withRetryFrom
    rw [hop]
    simp [hret]
  | succ n ih =>
    intro a hle hretry hop hret
    obtain ⟨m, hm, hmret⟩ := hretry a (Nat.le_refl a) (by omega)
    unfold Ancile.withRetryFrom
    rw [hm]
    simp only [hmret]
    rw [if_neg (by simp [hmret]), if_pos (by omega)]
    have heq : a + 1 + n = a + (n + 1) := by omega
    have := ih (a + 1) (by omega)
      (fun i h1 h2 => hretry i (by omega) (by omega))
      (by rw [heq]; exact hop) hret
    rw [this, heq]

/-- Loop invariant for `withRetryFrom`: when every remaining attempt fails
with a retryable classification, the loop exhausts all attempts and
reports `maxRetries + 1` attempts with the last classified error. -/
theorem Ancile.withRetryFrom_exhausts_retryable {T : Type}
    (op : Nat → Except String T) (maxRetries : Nat) (msg : String) :
    ∀ n a, a + n = maxRetries →
      (∀ i, a ≤ i → i ≤ maxRetries →
        ∃ m, op i = Except.error m ∧ (Ancile.classifyError m).retryable = true) →
      op maxRetries = Except.error msg →
      Ancile.withRetryFrom op maxRetries a =
        ⟨false, none, some (Ancile.classifyError msg), maxRetries + 1⟩ := by
  intro n
  induction n with
  | zero =>
    intro a ha _ hop
    rw [Nat.add_zero] at ha
    subst ha
    unfold Ancile.withRetryFrom
    rw [hop]
    by_cases hret : (Ancile.classifyError msg).retryable = true
    · simp [hret]
    · simp only [Bool.not_eq_true] at hret
      simp [hret]
  | succ n ih =>
    intro a ha hretry hop
    obtain ⟨m, hm, hmret⟩ := hretry a (Nat.le_refl a) (by omega)
    unfold Ancile.withRetryFrom
    rw [hm]
    simp only [hmret]
    rw [if_neg (by simp [hmret]), if_pos (by omega)]
    exact ih (a + 1) (by omega)
      (fun i h1 h2 => hretry i (by omega) h2) hop

/-- **C8**: `withRetry` never retries a non-retryable failure — it stops at
the failing attempt, reporting the attempt count so far and that error —
and when every attempt fails with a retryable classification it stops
after exactly `maxRetries + 1` attempts with the last classified error. -/
theorem Ancile.withRetry_retry_policy {T : Type}
    (op : Nat → Except String T) (maxRetries : Nat) :
    (∀ k msg, k ≤ maxRetries →
      (∀ i, i < k →
        ∃ m, op i = Except.error m ∧ (Ancile.classifyError m).retryable = true) →
      op k = Except.error msg →
      (Ancile.classifyError msg).retryable = false →
      Ancile.withRetry op maxRetries =
        ⟨false, none, some (Ancile.classifyError msg), k + 1⟩) ∧
    (∀ msg,
      (∀ i, i ≤ maxRetries →
        ∃ m, op i = Except.error m ∧ (Ancile.classifyError m).retryable = true) →
      op maxRetries = Except.error msg →
      Ancile.withRetry op maxRetries =
        ⟨false, none, some (Ancile.classifyError msg), maxRetries + 1⟩) := by
  constructor
  · intro k msg hk hretry hop hret
    have := Ancile.withRetryFrom_stops_nonretryable op maxRetries msg k 0
      (by omega) (fun i h1 h2 => hretry i (by omega))
      (by rw [Nat.zero_add]; exact hop) hret
    rw [Nat.zero_add] at this
    exact this
  · intro msg hretry hop
    exact Ancile.withRetryFrom_exhausts_retryable op maxRetries msg maxRetries 0
      (by omega) (fun i _ h2 => hretry i h2) hop

/-- Witness for C8: a wallet-rejection message (non-retryable) stops after
one attempt; a pure network failure (retryable) exhausts all four attempts
under the default `maxRetries = 3`. -/
theorem Ancile.withRetry_retry_policy_witness :
    Ancile.withRetry (fun _ => (Except.error "user rejected the request" : Except String Nat)) 3 =
        ⟨false, none, some (Ancile.classifyError "user rejected the request"), 1⟩ ∧
      Ancile.withRetry (fun _ => (Except.error "network down" : Except String Nat)) 3 =
        ⟨false, none, some (Ancile.classifyError "network down"), 4⟩ :=
  ⟨(Ancile.withRetry_retry_policy
        (fun _ => (Except.error "user rejected the request" : Except String Nat)) 3).1
      0 "user rejected the request" (by omega)
      (fun i h => absurd h (by omega)) rfl (by decide),
   (Ancile.withRetry_retry_policy
        (fun _ => (Except.error "network down" : Except String Nat)) 3).2
      "network down" (fun i _ => ⟨"network down", rfl, by decide⟩) rfl⟩

/-- **C9**: under the default configuration, for every attempt in `[0,10]`
and every jitter sample, the computed delay lies in
`[0, maxDelayMs * (1 + jitterFactor)] = [0, 33000]`. -/
theorem Ancile.backoff_delay_bounded (attempt : Nat) (rand : Rat)
    (ha : attempt ≤ 10) (h0 : 0 ≤ rand) (h1 : rand ≤ 1) :
    0 ≤ Ancile.calculateBackoffDelay attempt Ancile.DEFAULT_BACKOFF_CONFIG rand ∧
      Ancile.calculateBackoffDelay attempt Ancile.DEFAULT_BACKOFF_CONFIG rand ≤ 33000 ∧
      (33000 : Rat) = Ancile.DEFAULT_BACKOFF_CONFIG.maxDelayMs *
        (1 + Ancile.DEFAULT_BACKOFF_CONFIG.jitterFactor) := by
  unfold Ancile.calculateBackoffDelay Ancile.DEFAULT_BACKOFF_CONFIG
  refine ⟨le_max_left 0 _, ?_, by norm_num⟩
  simp only
  set b : Rat := min ((1000 : Rat) * (2 : Rat) ^ attempt) (30000 : Rat) with hb
  have hb0 : (0 : Rat) ≤ b := le_min (by positivity) (by norm_num)
  have hb1 : b ≤ 30000 := min_le_right _ _
  have hj : b * (1 / 10) * (rand * 2 - 1) ≤ b * (1 / 10) := by
    have hfac : rand * 2 - 1 ≤ 1 := by linarith
    have hpos : (0 : Rat) ≤ b * (1 / 10) := by positivity
    calc b * (1 / 10) * (rand * 2 - 1) ≤ b * (1 / 10) * 1 :=
          mul_le_mul_of_nonneg_left hfac hpos
      _ = b * (1 / 10) := mul_one _
  have hsum : b + b * (1 / 10) * (rand * 2 - 1) ≤ 33000 := by
    have : b + b * (1 / 10) ≤ 33000 := by linarith
    linarith
  refine max_le (by norm_num) ?_
  rw [round_eq]
  have hfl : (⌊b + b * (1 / 10) * (rand * 2 - 1) + 1 / 2⌋ : Int) ≤ ⌊(33000 : Rat) + 1 / 2⌋ :=
    Int.floor_le_floor (by linarith)
  have h33 : (⌊(33000 : Rat) + 1 / 2⌋ : Int) = 33000 := by
    rw [Int.floor_eq_iff]
    constructor
    · norm_num
    · norm_num
  rw [h33] at hfl
  exact hfl

/-- Witness for C9 at attempt 0 with jitter sample 1/2 (no jitter). -/
theorem Ancile.backoff_delay_bounded_witness :
    0 ≤ Ancile.calculateBackoffDelay 0 Ancile.DEFAULT_BACKOFF_CONFIG (1/2) ∧
      Ancile.calculateBackoffDelay 0 Ancile.DEFAULT_BACKOFF_CONFIG (1/2) ≤ 33000 ∧
      (33000 : Rat) = Ancile.DEFAULT_BACKOFF_CONFIG.maxDelayMs *
        (1 + Ancile.DEFAULT_BACKOFF_CONFIG.jitterFactor) :=
  Ancile.backoff_delay_bounded 0 (1/2) (by omega) (by norm_num) (by norm_num)
